import Mathlib

/-!
Shallow embedding of `src/token-server.ts` (FlowDoge token server).

The server keeps a global JavaScript object `tokenRequests` mapping a
correlation token ("state") to a `TokenRequest`, a counter
`numTokenRequests`, and an interval handle `tokenRequestClearerInterval`.
We model the JS object as an association list in insertion order (JS
objects iterate non-index string keys in insertion order, and assigning
to an existing key keeps its position), the counter as an `Int` (a JS
number that is incremented/decremented), and the interval as two flags:
`intervalVar` (the variable `tokenRequestClearerInterval` is non-null)
and `timerActive` (the underlying timer is actually scheduled).
`clearInterval` cancels the timer but does not null the variable, so the
two flags can diverge — exactly as in the source.

HTTP responses (`express.Response`) are modelled as integer handles into
a table of response states recording the last status code set, the body
chunks written (concatenated), whether `end()` was called, and a
`writeOk` flag abstracting whether the underlying connection still
accepts writes.  `res.status`/`res.end` in Node do not throw
synchronously on a dead connection, so the sweep's 408 write is
modelled as a best-effort update; the `try`/`catch` in
`handleAccessToken` is modelled as: the guarded write succeeds iff the
waiter's `writeOk` flag is set, otherwise control passes to the `catch`
branch.

Time: `Date.now()` is passed in as an explicit `now : Int` parameter;
the several `Date.now()` calls inside one synchronous operation are
modelled as returning the same value.

In JavaScript, reading a missing key of an object yields `undefined`
(not `null`), `undefined !== null` is `true`, and reading a property of
`undefined` throws a `TypeError`.  `handleAccessToken` is therefore
modelled in `Except String` so that this throw is visible; the other
store operations contain no property read of a possibly-undefined value
and are total.
-/

/-- Result payload of the upstream OAuth exchange (interface `AccessToken`). -/
structure AccessToken where
  access_token : String
  refresh_token : String
  expires_in : Nat
  token_type : String
  deriving Repr, DecidableEq

/-- One pending entry (interface `TokenRequest`).  `response` is an optional
response-handle id (`express.Response | null`), `result` an optional payload
(`AccessToken | null`). -/
structure TokenRequest where
  state : String
  response : Option Nat
  createdAt : Int
  result : Option AccessToken
  deriving Repr, DecidableEq

/-- State of one HTTP response object: the last status code set via
`res.status`, the concatenated body written via `res.write`/`res.end`,
whether the response was ended, and whether writes to the underlying
connection still succeed. -/
structure Resp where
  status : Option Nat
  body : String
  ended : Bool
  writeOk : Bool
  deriving Repr, DecidableEq

/-- The module-level mutable state of `token-server.ts`: `tokenRequests`,
`numTokenRequests`, `tokenRequestClearerInterval` (split into the two flags
described in the header), plus the table of live response objects. -/
structure ServerState where
  tokenRequests : List (String × TokenRequest)
  numTokenRequests : Int
  intervalVar : Bool
  timerActive : Bool
  responses : List (Nat × Resp)
  deriving Repr, DecidableEq

/-- MAX_REQUEST_LIFETIME = 1000 * 60 * 10 (ten minutes, in milliseconds). -/
def MAX_REQUEST_LIFETIME : Int := 1000 * 60 * 10

/-- MAX_TOKEN_REQUESTS = 10000. -/
def MAX_TOKEN_REQUESTS : Int := 10000

/-- Property read `tokenRequests[state]` / the `state in tokenRequests` test:
first (and, for a well-formed object, only) binding of the key. -/
def objLookup (k : String) : List (String × TokenRequest) → Option TokenRequest
  | [] => none
  | (k', v) :: rest => if k' = k then some v else objLookup k rest

/-- Assignment `tokenRequests[state] = req`: replace in place if the key is
present (JS keeps the original insertion position), else append. -/
def objSet (k : String) (v : TokenRequest) :
    List (String × TokenRequest) → List (String × TokenRequest)
  | [] => [(k, v)]
  | (k', v') :: rest => if k' = k then (k, v) :: rest else (k', v') :: objSet k v rest

/-- Deletion `delete tokenRequests[state]`. -/
def objDelete (k : String) (l : List (String × TokenRequest)) :
    List (String × TokenRequest) :=
  l.filter (fun p => p.1 ≠ k)

/-- Update one response object in the table. -/
def respUpdate (rid : Nat) (f : Resp → Resp) : List (Nat × Resp) → List (Nat × Resp)
  | [] => []
  | (i, r) :: rest => if i = rid then (i, f r) :: rest else (i, r) :: respUpdate rid f rest

/-- Look up one response object. -/
def respLookup (rid : Nat) : List (Nat × Resp) → Option Resp
  | [] => none
  | (i, r) :: rest => if i = rid then some r else respLookup rid rest

/-- Status of a response handle, if the handle exists. -/
def respStatus (rid : Nat) (rs : List (Nat × Resp)) : Option (Option Nat) :=
  (respLookup rid rs).map Resp.status

/-- JSON string escaping as performed by `JSON.stringify` on the string
values that occur here (quote and backslash; control-character escapes are
not modelled since no token field ever contains one in the properties we
state). -/
def jsonEscape (s : String) : String :=
  s.data.foldl
    (fun acc c =>
      if c = '"' then acc ++ "\\\""
      else if c = '\\' then acc ++ "\\\\"
      else acc.push c)
    ""

/-- The exact output of `JSON.stringify` on an `AccessToken` object: keys in
insertion order of the interface, integral numbers printed without a decimal
point. -/
def jsonStringify (t : AccessToken) : String :=
  "\x7b\"access_token\":\"" ++ jsonEscape t.access_token ++
  "\",\"refresh_token\":\"" ++ jsonEscape t.refresh_token ++
  "\",\"expires_in\":" ++ Nat.repr t.expires_in ++
  ",\"token_type\":\"" ++ jsonEscape t.token_type ++ "\"\x7d"

/-- Math.round (round half toward positive infinity) of the exact rational
a / b, for b > 0: Math.round(x) = ⌊x + 1/2⌋, so here ⌊(2a + b) / (2b)⌋ via
flooring integer division.  (At b = 0 the JS expression is NaN or ±Infinity;
that point is unreachable in the program, which divides only by a counter
that was just compared ≥ 10000.) -/
def jsRound (a b : Int) : Int := Int.fdiv (2 * a + b) (2 * b)

/-- The age test `now - request.createdAt > threshold` of the eviction sweep. -/
def isStale (threshold now : Int) (p : String × TokenRequest) : Bool :=
  decide (now - p.2.createdAt > threshold)

/-- Best-effort 408 write to an evicted entry's attached waiter
(`request.response.status(408); request.response.end()`). -/
def write408 (p : String × TokenRequest) (rs : List (Nat × Resp)) :
    List (Nat × Resp) :=
  match p.2.response with
  | some rid => respUpdate rid (fun r => { r with status := some 408, ended := true }) rs
  | none => rs

/-- `clearOldTokenRequests(threshold)`: iterate over a snapshot of the keys,
delete every entry strictly older than `threshold`, decrement the counter per
deletion, and send 408 to each deleted entry's attached waiter; afterwards,
if the counter is zero and the interval variable is non-null, `clearInterval`
the timer.  `clearInterval` does not null the variable, so only `timerActive`
is reset. -/
def clearOldTokenRequests (threshold now : Int) (w : ServerState) : ServerState :=
  let evicted := w.tokenRequests.filter (isStale threshold now)
  let kept := w.tokenRequests.filter (fun p => ¬ isStale threshold now p)
  let n' := w.numTokenRequests - evicted.length
  let rs := evicted.foldl (fun rs p => write408 p rs) w.responses
  let w' := { w with tokenRequests := kept, numTokenRequests := n', responses := rs }
  if n' = 0 ∧ w.intervalVar then { w' with timerActive := false } else w'

/-- `calculateMeanTokenRequestLifetime()`: Math.round of the sum of the ages
of all live entries divided by `numTokenRequests` (the counter, not the key
count). -/
def calculateMeanTokenRequestLifetime (now : Int) (w : ServerState) : Int :=
  jsRound (w.tokenRequests.foldl (fun acc p => acc + (now - p.2.createdAt)) 0)
    w.numTokenRequests

/-- `forceClearOldTokenRequests()`: sweep with the mean age as threshold. -/
def forceClearOldTokenRequests (now : Int) (w : ServerState) : ServerState :=
  clearOldTokenRequests (calculateMeanTokenRequestLifetime now w) now w

/-- The immediate-delivery write of `addTokenRequest`
(`response.status(200); response.write(JSON.stringify(...))` — note: no
`end()` and no content-type header on this path). -/
def writeStoredResult (rid : Nat) (t : AccessToken) (rs : List (Nat × Resp)) :
    List (Nat × Resp) :=
  respUpdate rid (fun r => { r with status := some 200, body := r.body ++ jsonStringify t }) rs

/-- Capacity phase of `addTokenRequest` (lines 85-90 of the source): if the
counter is at or above the ceiling, run the fixed-threshold sweep; if the
counter is still at or above the ceiling afterwards, run the mean-threshold
sweep on the resulting state. -/
def capacityEvict (now : Int) (w : ServerState) : ServerState :=
  if w.numTokenRequests ≥ MAX_TOKEN_REQUESTS then
    let wc := clearOldTokenRequests MAX_REQUEST_LIFETIME now w
    if wc.numTokenRequests ≥ MAX_TOKEN_REQUESTS then
      forceClearOldTokenRequests now wc
    else wc
  else w

/-- Branching phase of `addTokenRequest` (lines 92-108): fresh insertion when
the key is absent; immediate write of the stored result to a non-null new
waiter when the existing entry's result is set; otherwise replacement by a
freshly timestamped entry. -/
def insertOrDeliver (state : String) (response : Option Nat)
    (result : Option AccessToken) (now : Int) (w : ServerState) : ServerState :=
  let req : TokenRequest :=
    { state := state, response := response, createdAt := now, result := result }
  match objLookup state w.tokenRequests with
  | none =>
      { w with numTokenRequests := w.numTokenRequests + 1,
               tokenRequests := objSet state req w.tokenRequests }
  | some old =>
      match old.result, response with
      | some t, some rid =>
          { w with responses := writeStoredResult rid t w.responses }
      | _, _ =>
          { w with tokenRequests := objSet state req w.tokenRequests }

/-- Interval phase of `addTokenRequest` (lines 110-115): start the sweep
interval if the interval variable is null.  (The variable is never reset to
null, so this fires at most once per process.) -/
def startSweepIfNeeded (w : ServerState) : ServerState :=
  if w.intervalVar then w else { w with intervalVar := true, timerActive := true }

/-- `addTokenRequest(state, response, result)`: capacity-triggered eviction
(fixed-threshold pass, then mean-threshold pass if still at the ceiling),
then insert / deliver-stored-result / replace, then lazily start the sweep
interval if the interval variable is null. -/
def addTokenRequest (state : String) (response : Option Nat)
    (result : Option AccessToken) (now : Int) (w : ServerState) : ServerState :=
  startSweepIfNeeded (insertOrDeliver state response result now (capacityEvict now w))

/-- `handleAccessToken(state, token)`.  `tokenRequests[state]` yields
`undefined` when the key is absent; since `undefined !== null` is `true`,
the guard then reads `.response` of `undefined` and throws a TypeError —
modelled as `Except.error`.  When an entry with an attached waiter exists,
the guarded block writes status 200, the JSON content-type header, and ends
the response with the serialized token, then deletes the entry (without
decrementing the counter); if the write fails front-to-back, the `catch`
falls back to storing the result unmatched, as does the `else` branch for an
entry without a waiter. -/
def handleAccessToken (state : String) (token : AccessToken) (now : Int)
    (w : ServerState) : Except String ServerState :=
  match objLookup state w.tokenRequests with
  | none =>
      Except.error "TypeError: Cannot read properties of undefined (reading response)"
  | some tr =>
      match tr.response with
      | some rid =>
          match respLookup rid w.responses with
          | some r =>
              if r.writeOk then
                Except.ok
                  { w with
                    responses :=
                      respUpdate rid
                        (fun r => { r with status := some 200,
                                           body := r.body ++ jsonStringify token,
                                           ended := true }) w.responses,
                    tokenRequests := objDelete state w.tokenRequests }
              else
                Except.ok (addTokenRequest state none (some token) now w)
          | none =>
              Except.ok (addTokenRequest state none (some token) now w)
      | none =>
          Except.ok (addTokenRequest state none (some token) now w)

/-- One tick of the recurring sweep interval: fires only while the timer is
actually scheduled, and runs `clearOldTokenRequests()` with the default
threshold `MAX_REQUEST_LIFETIME`. -/
def sweepTick (now : Int) (w : ServerState) : ServerState :=
  if w.timerActive then clearOldTokenRequests MAX_REQUEST_LIFETIME now w else w

/-- The test the GET /token route applies to the state parameter:
`typeof state === "string" && state.match(/[a-z0-9]{32}/i)`.  The regex is
not anchored, so it succeeds iff the string contains 32 consecutive ASCII
alphanumeric characters somewhere.  `runAlnum n l` holds iff `l` starts with
`n` ASCII alphanumerics. -/
def runAlnum : Nat → List Char → Bool
  | 0, _ => true
  | _ + 1, [] => false
  | n + 1, c :: cs => c.isAlphanum && runAlnum n cs

/-- Unanchored search for a run of `n` ASCII alphanumerics. -/
def hasAlnumRun (n : Nat) : List Char → Bool
  | [] => decide (n = 0)
  | c :: cs => runAlnum n (c :: cs) || hasAlnumRun n cs

/-- The route's acceptance test on a string-valued state parameter. -/
def stateShapeOk (s : String) : Bool := hasAlnumRun 32 s.data

/-- The anchored shape from the spec's words: the whole string is exactly 32
ASCII alphanumerics (`^[a-z0-9]{32}$`, case-insensitive).  Stated for
comparison with `stateShapeOk`, which is what the code checks. -/
def stateShapeAnchored (s : String) : Bool :=
  decide (s.data.length = 32) && s.data.all Char.isAlphanum

/-- Reject with 400: `res.status(400); res.end()`. -/
def respond400 (rid : Nat) (w : ServerState) : ServerState :=
  { w with responses :=
      respUpdate rid (fun r => { r with status := some 400, ended := true }) w.responses }

/-- The GET /token route handler: the query parameter is `some s` when
`typeof state === "string"` (missing or non-string values behave as `none`).
A passing state is registered with the open response as waiter; a failing one
gets an immediate 400 and the store is not consulted. -/
def tokenRoute (state : Option String) (rid : Nat) (now : Int)
    (w : ServerState) : ServerState :=
  match state with
  | some s => if stateShapeOk s then addTokenRequest s (some rid) none now w
              else respond400 rid w
  | none => respond400 rid w

/-- A fresh, live response object: nothing written, connection accepting writes. -/
def freshResp : Resp := { status := none, body := "", ended := false, writeOk := true }

/-- The server state at process start, with the given fresh response handles
live (one per in-flight HTTP request). -/
def emptyWithResponses (rids : List Nat) : ServerState :=
  { tokenRequests := []
    numTokenRequests := 0
    intervalVar := false
    timerActive := false
    responses := rids.map (fun i => (i, freshResp)) }

/-! ### Helper lemmas about the object operations -/

theorem objLookup_objSet_self (k : String) (v : TokenRequest)
    (l : List (String × TokenRequest)) :
    objLookup k (objSet k v l) = some v := by
  induction l with
  | nil => simp [objSet, objLookup]
  | cons p rest ih =>
    obtain ⟨k', v'⟩ := p
    by_cases h : k' = k
    · simp [objSet, objLookup, h]
    · simp [objSet, objLookup, h, ih]

/-- Below the capacity ceiling the eviction phase is a no-op. -/
theorem capacityEvict_of_lt (now : Int) (w : ServerState)
    (h : w.numTokenRequests < MAX_TOKEN_REQUESTS) : capacityEvict now w = w := by
  unfold capacityEvict
  exact if_neg (not_le.mpr h)

/-- The interval phase never changes the map. -/
theorem startSweep_tokenRequests (w : ServerState) :
    (startSweepIfNeeded w).tokenRequests = w.tokenRequests := by
  unfold startSweepIfNeeded; split <;> rfl

/-- The interval phase never changes the response table. -/
theorem startSweep_responses (w : ServerState) :
    (startSweepIfNeeded w).responses = w.responses := by
  unfold startSweepIfNeeded; split <;> rfl

/-- The interval phase never changes the counter. -/
theorem startSweep_numTokenRequests (w : ServerState) :
    (startSweepIfNeeded w).numTokenRequests = w.numTokenRequests := by
  unfold startSweepIfNeeded; split <;> rfl

/-! ### Sample inputs used by the concrete theorems -/

/-- A sample upstream token payload. -/
def sampleToken : AccessToken :=
  { access_token := "t", refresh_token := "r", expires_in := 3600, token_type := "bearer" }

/-- A second, distinct sample payload. -/
def sampleToken2 : AccessToken :=
  { access_token := "u", refresh_token := "v", expires_in := 7200, token_type := "bearer" }

/-! ### C1 -/

/-- C1 (code bug): delivering an access-token result for a correlation token
with no live entry does not store the result unmatched — it throws.
`tokenRequests[state]` is `undefined` for an absent key, `undefined !== null`
passes the guard, and reading `.response` of `undefined` throws a TypeError,
so the fallback `addTokenRequest(state, null, token)` is never reached. -/
theorem c1_deliver_without_entry_throws :
    handleAccessToken "aaaabbbbccccddddeeeeffff00001111" sampleToken 0
        (emptyWithResponses []) =
      Except.error "TypeError: Cannot read properties of undefined (reading response)" :=
  rfl

/-! ### C2 -/

/-- C2 (code bug): the store operations do not never-raise.  On a store that
holds an unrelated live entry, delivering a result for a state with no entry
raises a TypeError instead of degrading, because the absent-key guard
compares `undefined` against `null`. -/
theorem c2_deliver_raises_on_absent_state :
    handleAccessToken "0123456789abcdef0123456789abcdef" sampleToken2 5
        (addTokenRequest "ffffeeeeddddccccbbbbaaaa99998888" (some 1) none 0
          (emptyWithResponses [1])) =
      Except.error "TypeError: Cannot read properties of undefined (reading response)" :=
  rfl

/-! ### C4 -/

/-- A store holding one waiter entry for state "s4", created at time 0. -/
def c4Base : ServerState :=
  addTokenRequest "s4" (some 1) none 0 (emptyWithResponses [1, 2])

/-- C4 counterexample: the entry for "s4" is created at time 0; a second poll
at time 5 takes the replace path (entry exists, result still null), and the
stored entry's `createdAt` afterwards is 5, not the original 0 — the
timestamp IS refreshed on replacement, contrary to the claim. -/
theorem c4_counterexample :
    (objLookup "s4" c4Base.tokenRequests).map TokenRequest.createdAt = some 0 ∧
    (objLookup "s4" (addTokenRequest "s4" (some 2) none 5 c4Base).tokenRequests).map
        TokenRequest.createdAt = some 5 ∧ (5 : Int) ≠ 0 := by
  refine ⟨rfl, rfl, by decide⟩

/-- C4 (amended): on the replace path (entry exists, not the
result-set-plus-new-waiter case, store below the capacity ceiling so the
entry is not evicted first), the stored entry is overwritten with a fresh
`createdAt` equal to the time of the replacing call — the creation timestamp
is refreshed, not preserved. -/
theorem c4_amended_replace_refreshes_createdAt
    (s : String) (response : Option Nat) (result : Option AccessToken)
    (now : Int) (w : ServerState) (old : TokenRequest)
    (hcap : w.numTokenRequests < MAX_TOKEN_REQUESTS)
    (hold : objLookup s w.tokenRequests = some old)
    (hnd : ¬ (old.result.isSome = true ∧ response.isSome = true)) :
    objLookup s (addTokenRequest s response result now w).tokenRequests =
      some { state := s, response := response, createdAt := now, result := result } := by
  unfold addTokenRequest
  rw [capacityEvict_of_lt now w hcap, startSweep_tokenRequests]
  unfold insertOrDeliver
  simp only [hold]
  rcases hres2 : old.result with - | t <;> rcases hresp2 : response with - | rid <;>
    simp_all [objLookup_objSet_self]

/-- C4 amended, witness: concrete instance of the replace path. -/
theorem c4_amended_witness :
    objLookup "s4" (addTokenRequest "s4" (some 2) none 5 c4Base).tokenRequests =
      some { state := "s4", response := some 2, createdAt := 5, result := none } :=
  c4_amended_replace_refreshes_createdAt "s4" (some 2) none 5 c4Base
    { state := "s4", response := some 1, createdAt := 0, result := none }
    (by decide) rfl (by decide)

/-! ### C5 -/

/-- First poll registers a waiter at time 0; the sweep interval starts. -/
def c5AfterInsert : ServerState :=
  addTokenRequest "s5" (some 1) none 0 (emptyWithResponses [1, 2])

/-- The first interval tick (period MAX_REQUEST_LIFETIME + 1000) fires at
601000 and evicts the now-stale entry, emptying the store. -/
def c5AfterSweep : ServerState := sweepTick 601000 c5AfterInsert

/-- A later poll inserts into the empty store. -/
def c5AfterReinsert : ServerState :=
  addTokenRequest "t5" (some 2) none 602000 c5AfterSweep

/-- C5 (code bug): the sweep does not restart on insertion into an emptied
store.  After the sweep empties the store it calls `clearInterval` but never
nulls `tokenRequestClearerInterval`, so the lazy-start test
`tokenRequestClearerInterval === null` in `addTokenRequest` never succeeds
again: the re-inserted entry is live while no sweep timer is scheduled. -/
theorem c5_sweep_not_restarted :
    c5AfterSweep.tokenRequests = [] ∧
    c5AfterSweep.timerActive = false ∧
    c5AfterSweep.intervalVar = true ∧
    c5AfterReinsert.tokenRequests.length = 1 ∧
    c5AfterReinsert.timerActive = false :=
  ⟨rfl, rfl, rfl, rfl, rfl⟩

/-! ### C9 -/

/-- C9 (confirmed): registering a second waiter for a still-unresolved token
(entry present, result not yet set, store below the capacity ceiling)
replaces the entry so that it holds exactly the new waiter, and the response
table is untouched by the operation — in particular the discarded first
waiter receives no write from the store. -/
theorem c9_second_waiter_discards_first
    (s : String) (rid1 rid2 : Nat) (now : Int) (w : ServerState) (old : TokenRequest)
    (hcap : w.numTokenRequests < MAX_TOKEN_REQUESTS)
    (hold : objLookup s w.tokenRequests = some old)
    (_hresp : old.response = some rid1)
    (hres : old.result = none) :
    objLookup s (addTokenRequest s (some rid2) none now w).tokenRequests =
      some { state := s, response := some rid2, createdAt := now, result := none } ∧
    (addTokenRequest s (some rid2) none now w).responses = w.responses := by
  unfold addTokenRequest
  constructor
  · rw [capacityEvict_of_lt now w hcap, startSweep_tokenRequests]
    unfold insertOrDeliver
    simp only [hold, hres]
    simp [objLookup_objSet_self]
  · rw [capacityEvict_of_lt now w hcap, startSweep_responses]
    unfold insertOrDeliver
    simp only [hold, hres]

/-- C9 witness: concrete second poll for a pending token. -/
theorem c9_witness :
    objLookup "s4" (addTokenRequest "s4" (some 2) none 5 c4Base).tokenRequests =
      some { state := "s4", response := some 2, createdAt := 5, result := none } ∧
    (addTokenRequest "s4" (some 2) none 5 c4Base).responses = c4Base.responses :=
  c9_second_waiter_discards_first "s4" 1 2 5 c4Base
    { state := "s4", response := some 1, createdAt := 0, result := none }
    (by decide) rfl rfl rfl

/-! ### C10 -/

/-- A store with one waiter entry for "sA": counter 1, one key. -/
def c10Base : ServerState :=
  addTokenRequest "sA" (some 1) none 0 (emptyWithResponses [1])

/-- C10 (code bug): the successful-delivery path of `handleAccessToken`
deletes the map entry without decrementing `numTokenRequests`.  Starting from
a store with one entry and counter 1, the delivery leaves zero keys but a
counter of 1, breaking the claimed equality. -/
theorem c10_delivery_breaks_counter :
    c10Base.numTokenRequests = 1 ∧
    c10Base.tokenRequests.length = 1 ∧
    (handleAccessToken "sA" sampleToken 5 c10Base).toOption.map
        (fun w => (w.tokenRequests.length, w.numTokenRequests)) = some (0, 1) :=
  ⟨rfl, rfl, rfl⟩

/-! ### C3 -/

/-- The 33-character string aaa...a: it contains a 32-run of alphanumerics
but does not match the anchored shape. -/
def s33 : String := String.mk (List.replicate 33 'a')

/-- C3 counterexample: `s33` fails the anchored shape `^[a-z0-9]{32}$`, yet
the /token route does not answer 400 and does touch the store: the code's
regex `/[a-z0-9]{32}/i` is unanchored, so any string containing a 32-run is
accepted and registered. -/
theorem c3_counterexample :
    stateShapeAnchored s33 = false ∧
    (tokenRoute (some s33) 1 0 (emptyWithResponses [1])).tokenRequests.length = 1 ∧
    respStatus 1 (tokenRoute (some s33) 1 0 (emptyWithResponses [1])).responses =
      some none :=
  ⟨rfl, rfl, rfl⟩

/-- Characterization of `runAlnum`: the list starts with `n` ASCII
alphanumerics. -/
theorem runAlnum_iff (n : Nat) (l : List Char) :
    runAlnum n l = true ↔
      ∃ mid post : List Char,
        mid ++ post = l ∧ mid.length = n ∧ ∀ c ∈ mid, c.isAlphanum = true := by
  induction n generalizing l with
  | zero =>
    constructor
    · intro _; exact ⟨[], l, rfl, rfl, by simp⟩
    · intro _; rfl
  | succ n ih =>
    cases l with
    | nil =>
      constructor
      · intro h; exact absurd h (by simp [runAlnum])
      · rintro ⟨mid, post, heq, hlen, -⟩
        cases mid with
        | nil => simp at hlen
        | cons a as => simp at heq
    | cons c cs =>
      simp only [runAlnum, Bool.and_eq_true, ih]
      constructor
      · rintro ⟨hc, mid, post, heq, hlen, hall⟩
        refine ⟨c :: mid, post, by simp [heq], by simp [hlen], ?_⟩
        intro x hx
        rcases List.mem_cons.mp hx with h | h
        · subst h; exact hc
        · exact hall x h
      · rintro ⟨mid, post, heq, hlen, hall⟩
        cases mid with
        | nil => simp at hlen
        | cons a as =>
          rw [List.cons_append] at heq
          injection heq with h1 h2
          subst h1
          refine ⟨hall a (List.mem_cons_self a as), as, post, h2, by simpa using hlen, ?_⟩
          intro x hx; exact hall x (List.mem_cons_of_mem a hx)

/-- Characterization of the unanchored search: some decomposition
pre ++ mid ++ post with an all-alphanumeric `mid` of length `n`. -/
theorem hasAlnumRun_iff (n : Nat) (l : List Char) :
    hasAlnumRun n l = true ↔
      ∃ pre mid post : List Char,
        pre ++ mid ++ post = l ∧ mid.length = n ∧ ∀ c ∈ mid, c.isAlphanum = true := by
  induction l with
  | nil =>
    simp only [hasAlnumRun, decide_eq_true_eq]
    constructor
    · rintro rfl; exact ⟨[], [], [], rfl, rfl, by simp⟩
    · rintro ⟨pre, mid, post, heq, hlen, -⟩
      have hmid : mid = [] := (List.append_eq_nil.mp (List.append_eq_nil.mp heq).1).2
      subst hmid; simpa using hlen.symm
  | cons c cs ih =>
    simp only [hasAlnumRun, Bool.or_eq_true, runAlnum_iff, ih]
    constructor
    · rintro (⟨mid, post, heq, hlen, hall⟩ | ⟨pre, mid, post, heq, hlen, hall⟩)
      · exact ⟨[], mid, post, by simpa using heq, hlen, hall⟩
      · exact ⟨c :: pre, mid, post, by simp [← heq], hlen, hall⟩
    · rintro ⟨pre, mid, post, heq, hlen, hall⟩
      cases pre with
      | nil => exact Or.inl ⟨mid, post, by simpa using heq, hlen, hall⟩
      | cons a as =>
        rw [List.cons_append, List.cons_append] at heq
        injection heq with h1 h2
        exact Or.inr ⟨as, mid, post, h2, hlen, hall⟩

/-- C3 (amended): the /token route's check is unanchored.  A string-valued
`state` is rejected with 400 — the response gets status 400 and the store is
left untouched — exactly when it contains no run of 32 consecutive ASCII
alphanumeric characters; any state containing such a run (not only exact
32-character matches) reaches the store as a registration. -/
theorem c3_amended_unanchored_shape
    (s : String) (rid : Nat) (now : Int) (w : ServerState) :
    (stateShapeOk s = false →
        tokenRoute (some s) rid now w = respond400 rid w ∧
        (tokenRoute (some s) rid now w).tokenRequests = w.tokenRequests ∧
        (tokenRoute (some s) rid now w).numTokenRequests = w.numTokenRequests) ∧
    (stateShapeOk s = true →
        tokenRoute (some s) rid now w = addTokenRequest s (some rid) none now w) ∧
    (stateShapeOk s = true ↔
      ∃ pre mid post : List Char,
        pre ++ mid ++ post = s.data ∧ mid.length = 32 ∧
        ∀ c ∈ mid, c.isAlphanum = true) := by
  refine ⟨fun h => ?_, fun h => ?_, hasAlnumRun_iff 32 s.data⟩
  · have : tokenRoute (some s) rid now w = respond400 rid w := by
      simp [tokenRoute, h]
    exact ⟨this, by simp [this, respond400], by simp [this, respond400]⟩
  · simp [tokenRoute, h]

/-- C3 amended, witness: the state "bad" contains no 32-run, is rejected
with 400, and leaves the store untouched; and `s33` satisfies the run
characterization. -/
theorem c3_amended_witness :
    (tokenRoute (some "bad") 1 0 (emptyWithResponses [1])).tokenRequests = [] ∧
    tokenRoute (some "bad") 1 0 (emptyWithResponses [1]) =
      respond400 1 (emptyWithResponses [1]) ∧
    stateShapeOk s33 = true := by
  refine ⟨?_, ?_, ?_⟩
  · have h := (c3_amended_unanchored_shape "bad" 1 0 (emptyWithResponses [1])).1 (by decide)
    exact h.2.1
  · exact ((c3_amended_unanchored_shape "bad" 1 0 (emptyWithResponses [1])).1 (by decide)).1
  · exact ((c3_amended_unanchored_shape s33 1 0 (emptyWithResponses [1])).2.2).mpr
      ⟨[], List.replicate 32 'a', ['a'], by decide, by simp, by
        intro c hc
        have := List.eq_of_mem_replicate hc
        subst this; decide⟩

/-! ### Synthetic saturated stores for the capacity claims

A store at the capacity ceiling has 10000 entries; the capacity-triggered
claims are settled by lemmas over blocks of synthetic entries with distinct
keys (a prefix followed by a decimal index) and a common creation time,
rather than by kernel evaluation of 10000-element lists. -/

/-- Key of the i-th synthetic entry of a block. -/
def mkKey (pre : String) (i : Nat) : String := pre ++ Nat.repr i

/-- The i-th synthetic entry of a block: a result-less, waiter-less entry
created at time `c` (the shape left behind by an evicted-waiter replacement;
only its key and `createdAt` matter to the eviction passes). -/
def mkEntry (pre : String) (c : Int) (i : Nat) : String × TokenRequest :=
  (mkKey pre i, { state := mkKey pre i, response := none, createdAt := c, result := none })

/-- A block of `n` synthetic entries with key prefix `pre`, all created at
time `c` (indices n-1 down to 0). -/
def mkBlock (pre : String) (c : Int) : Nat → List (String × TokenRequest)
  | 0 => []
  | n + 1 => mkEntry pre c n :: mkBlock pre c n

theorem mkBlock_length (pre : String) (c : Int) (n : Nat) :
    (mkBlock pre c n).length = n := by
  induction n with
  | zero => rfl
  | succ n ih => simp [mkBlock, ih]

theorem mem_mkBlock_createdAt (pre : String) (c : Int) (n : Nat)
    (p : String × TokenRequest) (hp : p ∈ mkBlock pre c n) : p.2.createdAt = c := by
  induction n with
  | zero => cases hp
  | succ n ih =>
    simp only [mkBlock, List.mem_cons] at hp
    rcases hp with rfl | h
    · rfl
    · exact ih h

theorem mem_mkBlock_key (pre : String) (c : Int) (n : Nat)
    (p : String × TokenRequest) (hp : p ∈ mkBlock pre c n) : ∃ i, p.1 = mkKey pre i := by
  induction n with
  | zero => cases hp
  | succ n ih =>
    simp only [mkBlock, List.mem_cons] at hp
    rcases hp with rfl | h
    · exact ⟨n, rfl⟩
    · exact ih h

theorem mkEntry_mem_mkBlock (pre : String) (c : Int) (i n : Nat) (h : i < n) :
    mkEntry pre c i ∈ mkBlock pre c n := by
  induction n with
  | zero => exact absurd h (Nat.not_lt_zero i)
  | succ n ih =>
    simp only [mkBlock]
    rcases Nat.lt_succ_iff_lt_or_eq.mp h with h' | rfl
    · exact List.mem_cons_of_mem _ (ih h')
    · exact List.mem_cons_self _ _

/-- A block key starts with the first character of its prefix. -/
theorem mkKey_data (pre : String) (c : Char) (rest : List Char)
    (hpre : pre.data = c :: rest) (i : Nat) :
    (mkKey pre i).data = c :: (rest ++ (Nat.repr i).data) := by
  show (pre ++ Nat.repr i).data = _
  rw [String.data_append, hpre]
  rfl

/-- A block key differs from any string not starting with the prefix's first
character. -/
theorem mkKey_ne (pre t : String) (c : Char) (rest : List Char)
    (hpre : pre.data = c :: rest) (ht : t.data.head? ≠ some c) (i : Nat) :
    mkKey pre i ≠ t := by
  intro he
  apply ht
  rw [← he, mkKey_data pre c rest hpre i]
  rfl

/-- Lookup misses a list none of whose keys is the target. -/
theorem objLookup_eq_none (k : String) (l : List (String × TokenRequest))
    (h : ∀ p ∈ l, p.1 ≠ k) : objLookup k l = none := by
  induction l with
  | nil => rfl
  | cons p rest ih =>
    obtain ⟨k', v⟩ := p
    simp only [objLookup]
    rw [if_neg (h (k', v) (List.mem_cons_self _ _))]
    exact ih (fun q hq => h q (List.mem_cons_of_mem _ hq))

/-- Setting an absent key appends, growing the list by one. -/
theorem objSet_length_of_absent (k : String) (v : TokenRequest)
    (l : List (String × TokenRequest)) (h : ∀ p ∈ l, p.1 ≠ k) :
    (objSet k v l).length = l.length + 1 := by
  induction l with
  | nil => rfl
  | cons p rest ih =>
    obtain ⟨k', v'⟩ := p
    simp only [objSet]
    rw [if_neg (h (k', v') (List.mem_cons_self _ _))]
    simp [ih (fun q hq => h q (List.mem_cons_of_mem _ hq))]

/-- Folding the age sum over a block of entries with a common creation time. -/
theorem foldl_age_const (now c : Int) (l : List (String × TokenRequest))
    (h : ∀ p ∈ l, p.2.createdAt = c) (init : Int) :
    l.foldl (fun acc p => acc + (now - p.2.createdAt)) init
      = init + (l.length : Int) * (now - c) := by
  induction l generalizing init with
  | nil => simp
  | cons p rest ih =>
    simp only [List.foldl_cons, List.length_cons]
    rw [h p (List.mem_cons_self _ _),
      ih (fun q hq => h q (List.mem_cons_of_mem _ hq)) (init + (now - c))]
    push_cast
    ring

/-- A sweep over a store with no stale entry (and a nonzero counter) is the
identity. -/
theorem clearOld_no_stale (threshold now : Int) (w : ServerState)
    (h : ∀ p ∈ w.tokenRequests, isStale threshold now p = false)
    (hn0 : w.numTokenRequests ≠ 0) :
    clearOldTokenRequests threshold now w = w := by
  unfold clearOldTokenRequests
  have hev : w.tokenRequests.filter (isStale threshold now) = [] :=
    List.filter_eq_nil_iff.mpr (fun p hp => by simp [h p hp])
  have hk : w.tokenRequests.filter (fun p => ¬ isStale threshold now p)
      = w.tokenRequests :=
    List.filter_eq_self.mpr (fun p hp => by simp [h p hp])
  simp only [hev, hk, List.length_nil, Int.natCast_zero, sub_zero, List.foldl_nil]
  rw [if_neg (by intro hc; exact hn0 hc.1)]

/-- Filtering shortens a list exactly when some element fails the predicate. -/
theorem length_filter_lt_iff {α : Type} (p : α → Bool) (l : List α) :
    (l.filter p).length < l.length ↔ ∃ x ∈ l, p x = false := by
  induction l with
  | nil => simp
  | cons a l ih =>
    by_cases h : p a
    · simp only [List.filter_cons, if_pos h, List.length_cons, Nat.add_lt_add_iff_right, ih]
      constructor
      · rintro ⟨x, hx, hfx⟩; exact ⟨x, List.mem_cons_of_mem a hx, hfx⟩
      · rintro ⟨x, hx, hfx⟩
        rcases List.mem_cons.mp hx with rfl | hx'
        · exact absurd h (by simp [hfx])
        · exact ⟨x, hx', hfx⟩
    · simp only [List.filter_cons, if_neg h, List.length_cons]
      constructor
      · intro _
        exact ⟨a, List.mem_cons_self a l, by simpa using h⟩
      · intro _
        exact Nat.lt_succ_of_le (l.length_filter_le p)
  
/-- The sweep's surviving map is exactly the filter of the non-stale entries. -/
theorem clearOld_tokenRequests (threshold now : Int) (w : ServerState) :
    (clearOldTokenRequests threshold now w).tokenRequests
      = w.tokenRequests.filter (fun p => ¬ isStale threshold now p) := by
  unfold clearOldTokenRequests
  dsimp only []
  split <;> rfl

/-! ### C6 -/

/-- A saturated store: 5000 entries created at time 1 and 5000 at time 0, at
the capacity ceiling, sweep interval running, one fresh open response. -/
def c6Store : ServerState :=
  { tokenRequests := mkBlock "a" 1 5000 ++ mkBlock "b" 0 5000
    numTokenRequests := 10000
    intervalVar := true
    timerActive := true
    responses := [(7, freshResp)] }

theorem c6Store_createdAt (p : String × TokenRequest)
    (hp : p ∈ c6Store.tokenRequests) : p.2.createdAt = 1 ∨ p.2.createdAt = 0 := by
  have hp' : p ∈ mkBlock "a" 1 5000 ++ mkBlock "b" 0 5000 := hp
  rcases List.mem_append.mp hp' with h | h
  · exact Or.inl (mem_mkBlock_createdAt _ _ _ p h)
  · exact Or.inr (mem_mkBlock_createdAt _ _ _ p h)

theorem c6_not_stale_fixed :
    ∀ p ∈ c6Store.tokenRequests, isStale MAX_REQUEST_LIFETIME 3 p = false := by
  intro p hp
  rcases c6Store_createdAt p hp with h | h <;> simp only [isStale, h] <;> decide

theorem c6_not_stale_mean :
    ∀ p ∈ c6Store.tokenRequests, isStale 3 3 p = false := by
  intro p hp
  rcases c6Store_createdAt p hp with h | h <;> simp only [isStale, h] <;> decide

theorem c6_age_sum :
    c6Store.tokenRequests.foldl (fun acc p => acc + (3 - p.2.createdAt)) 0 = 25000 := by
  show (mkBlock "a" 1 5000 ++ mkBlock "b" 0 5000).foldl
      (fun acc p => acc + (3 - p.2.createdAt)) 0 = 25000
  rw [List.foldl_append,
    foldl_age_const 3 1 _ (mem_mkBlock_createdAt "a" 1 5000) 0,
    foldl_age_const 3 0 _ (mem_mkBlock_createdAt "b" 0 5000) _,
    mkBlock_length, mkBlock_length]
  norm_num

/-- The mean age of the saturated store at time 3: Math.round(25000/10000)
= Math.round(2.5) = 3 (half rounds up). -/
theorem c6_mean : calculateMeanTokenRequestLifetime 3 c6Store = 3 := by
  unfold calculateMeanTokenRequestLifetime
  rw [c6_age_sum]
  decide

theorem c6_clear_id : clearOldTokenRequests MAX_REQUEST_LIFETIME 3 c6Store = c6Store :=
  clearOld_no_stale _ _ _ c6_not_stale_fixed (by decide)

theorem c6_force_id : forceClearOldTokenRequests 3 c6Store = c6Store := by
  unfold forceClearOldTokenRequests
  rw [c6_mean]
  exact clearOld_no_stale _ _ _ c6_not_stale_mean (by decide)

theorem c6_capacityEvict : capacityEvict 3 c6Store = c6Store := by
  unfold capacityEvict
  rw [if_pos (by decide : c6Store.numTokenRequests ≥ MAX_TOKEN_REQUESTS)]
  simp only [c6_clear_id]
  rw [if_pos (by decide : c6Store.numTokenRequests ≥ MAX_TOKEN_REQUESTS)]
  exact c6_force_id

theorem c6_keys_ne_fresh : ∀ p ∈ c6Store.tokenRequests, p.1 ≠ "zfresh" := by
  intro p hp
  have hp' : p ∈ mkBlock "a" 1 5000 ++ mkBlock "b" 0 5000 := hp
  rcases List.mem_append.mp hp' with h | h
  · obtain ⟨i, hk⟩ := mem_mkBlock_key _ _ _ p h
    rw [hk]
    exact mkKey_ne "a" "zfresh" 'a' [] rfl (by decide) i
  · obtain ⟨i, hk⟩ := mem_mkBlock_key _ _ _ p h
    rw [hk]
    exact mkKey_ne "b" "zfresh" 'b' [] rfl (by decide) i

theorem c6_post_insert_len :
    (addTokenRequest "zfresh" (some 7) none 3 c6Store).tokenRequests.length = 10001 := by
  unfold addTokenRequest
  rw [startSweep_tokenRequests, c6_capacityEvict]
  unfold insertOrDeliver
  simp only [objLookup_eq_none "zfresh" c6Store.tokenRequests c6_keys_ne_fresh]
  rw [objSet_length_of_absent _ _ _ c6_keys_ne_fresh]
  have hlen : c6Store.tokenRequests.length = 10000 := by
    show (mkBlock "a" 1 5000 ++ mkBlock "b" 0 5000).length = 10000
    simp [mkBlock_length]
  rw [hlen]

/-- C6 counterexample: a store at the ceiling whose entries have ages 2 ms
(5000 entries) and 3 ms (5000 entries) at the time of insertion.  The fixed
pass evicts nothing; the mean pass threshold is Math.round(25000/10000) = 3,
and no entry is strictly older than 3, so nothing is evicted: the post-insert
size is 10001, exactly what it would be without eviction — not strictly less
— and the age-3 entries survive the mean pass although their age exceeds the
pre-eviction mean 2.5 (witnessed by 3 * 10000 > 25000). -/
theorem c6_counterexample :
    c6Store.numTokenRequests ≥ MAX_TOKEN_REQUESTS ∧
    c6Store.tokenRequests.length = 10000 ∧
    (addTokenRequest "zfresh" (some 7) none 3 c6Store).tokenRequests.length = 10001 ∧
    (mkEntry "b" 0 0) ∈ (forceClearOldTokenRequests 3 c6Store).tokenRequests ∧
    (3 - (mkEntry "b" 0 0).2.createdAt) * (10000 : Int) >
      c6Store.tokenRequests.foldl (fun acc p => acc + (3 - p.2.createdAt)) 0 := by
  refine ⟨by decide, ?_, c6_post_insert_len, ?_, ?_⟩
  · show (mkBlock "a" 1 5000 ++ mkBlock "b" 0 5000).length = 10000
    simp [mkBlock_length]
  · rw [c6_force_id]
    show mkEntry "b" 0 0 ∈ mkBlock "a" 1 5000 ++ mkBlock "b" 0 5000
    refine List.mem_append.mpr (Or.inr ?_)
    exact mkEntry_mem_mkBlock "b" 0 0 5000 (by norm_num)
  · rw [c6_age_sum]
    decide

/-- C6 (amended): the capacity-triggered mean pass removes exactly the
entries strictly older than the rounded mean age.  Consequently every
survivor of the mean pass has age at most the rounded mean (which can exceed
the exact mean, as rounding is half-up), and the pass strictly shrinks the
store — making the post-insert size strictly smaller than without eviction —
if and only if some entry is strictly older than the rounded mean; when no
entry is (e.g. all ages equal), nothing is evicted. -/
theorem c6_amended_mean_pass (now : Int) (w : ServerState) :
    (∀ p ∈ (forceClearOldTokenRequests now w).tokenRequests,
        now - p.2.createdAt ≤ calculateMeanTokenRequestLifetime now w) ∧
    ((forceClearOldTokenRequests now w).tokenRequests.length <
        w.tokenRequests.length ↔
      ∃ p ∈ w.tokenRequests,
        now - p.2.createdAt > calculateMeanTokenRequestLifetime now w) := by
  have htr := clearOld_tokenRequests (calculateMeanTokenRequestLifetime now w) now w
  constructor
  · intro p hp
    rw [show forceClearOldTokenRequests now w
        = clearOldTokenRequests (calculateMeanTokenRequestLifetime now w) now w
        from rfl, htr] at hp
    have := List.of_mem_filter hp
    simpa [isStale, not_lt] using this
  · rw [show forceClearOldTokenRequests now w
        = clearOldTokenRequests (calculateMeanTokenRequestLifetime now w) now w
        from rfl, htr, length_filter_lt_iff]
    constructor
    · rintro ⟨p, hp, hfalse⟩
      refine ⟨p, hp, ?_⟩
      have h2 : isStale (calculateMeanTokenRequestLifetime now w) now p = true := by
        by_contra hno
        rw [Bool.not_eq_true] at hno
        simp [hno] at hfalse
      exact of_decide_eq_true h2
    · rintro ⟨p, hp, hgt⟩
      exact ⟨p, hp, by simp [isStale, hgt]⟩

/-! ### C7 -/

/-- A saturated store in which every entry has the same age: 10000 entries
created at time 0, inspected at time 5 (age 5 ms, far below the fixed
ceiling). -/
def c7Store : ServerState :=
  { tokenRequests := mkBlock "c" 0 10000
    numTokenRequests := 10000
    intervalVar := true
    timerActive := true
    responses := [] }

theorem c7_age_sum :
    c7Store.tokenRequests.foldl (fun acc p => acc + (5 - p.2.createdAt)) 0 = 50000 := by
  show (mkBlock "c" 0 10000).foldl (fun acc p => acc + (5 - p.2.createdAt)) 0 = 50000
  rw [foldl_age_const 5 0 _ (mem_mkBlock_createdAt "c" 0 10000) 0, mkBlock_length]
  norm_num

/-- The mean age of `c7Store` at time 5 is Math.round(50000/10000) = 5. -/
theorem c7_mean : calculateMeanTokenRequestLifetime 5 c7Store = 5 := by
  unfold calculateMeanTokenRequestLifetime
  rw [c7_age_sum]
  decide

theorem c7_not_stale_mean : ∀ p ∈ c7Store.tokenRequests, isStale 5 5 p = false := by
  intro p hp
  have h := mem_mkBlock_createdAt "c" 0 10000 p hp
  simp only [isStale, h]
  decide

/-- C7 counterexample: a saturated store (counter at the ceiling) in which no
entry is older than the fixed age ceiling, on which the mean-threshold pass
purges nothing at all — far from purging the oldest half — because no entry
is strictly older than the rounded mean age (all ages are equal). -/
theorem c7_counterexample :
    c7Store.numTokenRequests ≥ MAX_TOKEN_REQUESTS ∧
    (∀ p ∈ c7Store.tokenRequests, 5 - p.2.createdAt ≤ MAX_REQUEST_LIFETIME) ∧
    (forceClearOldTokenRequests 5 c7Store).tokenRequests = c7Store.tokenRequests := by
  refine ⟨by decide, ?_, ?_⟩
  · intro p hp
    have h := mem_mkBlock_createdAt "c" 0 10000 p hp
    rw [h]
    decide
  · have h : forceClearOldTokenRequests 5 c7Store = c7Store := by
      unfold forceClearOldTokenRequests
      rw [c7_mean]
      exact clearOld_no_stale _ _ _ c7_not_stale_mean (by decide)
    rw [h]

/-- C7 (amended): an entry of the store survives the mean-threshold pass
exactly when its age is at most the rounded mean age of the current entries;
the pass purges exactly the entries strictly older than that threshold, which
can be none (for example when all entries have equal age) — there is no
oldest-half guarantee. -/
theorem c7_amended_mean_pass_membership (now : Int) (w : ServerState)
    (p : String × TokenRequest) (hmem : p ∈ w.tokenRequests) :
    p ∈ (forceClearOldTokenRequests now w).tokenRequests ↔
      now - p.2.createdAt ≤ calculateMeanTokenRequestLifetime now w := by
  rw [show forceClearOldTokenRequests now w
      = clearOldTokenRequests (calculateMeanTokenRequestLifetime now w) now w
      from rfl, clearOld_tokenRequests, List.mem_filter]
  simp [hmem, isStale, not_lt]

/-- An entry created at 1, hence of age 9 at inspection time 10 (C7 witness). -/
def w7Older : TokenRequest :=
  { state := "p7", response := none, createdAt := 1, result := none }

/-- An entry created at 9, hence of age 1 at inspection time 10 (C7 witness). -/
def w7Newer : TokenRequest :=
  { state := "q7", response := none, createdAt := 9, result := none }

/-- A two-entry store with ages 9 and 1 at time 10 (rounded mean age 5). -/
def w7Store : ServerState :=
  { tokenRequests := [("p7", w7Older), ("q7", w7Newer)]
    numTokenRequests := 2
    intervalVar := true
    timerActive := true
    responses := [] }

/-- C7 amended, witness: the membership equivalence instantiated at the age-9
entry of the two-entry store (both sides are false there: 9 exceeds the
rounded mean 5 and the entry is purged). -/
theorem c7_amended_witness :
    ("p7", w7Older) ∈ (forceClearOldTokenRequests 10 w7Store).tokenRequests ↔
      10 - ("p7", w7Older).2.createdAt ≤ calculateMeanTokenRequestLifetime 10 w7Store :=
  c7_amended_mean_pass_membership 10 w7Store ("p7", w7Older) (by decide)

/-! ### C8 -/

theorem respLookup_respUpdate_self (rid : Nat) (f : Resp → Resp)
    (rs : List (Nat × Resp)) :
    respLookup rid (respUpdate rid f rs) = (respLookup rid rs).map f := by
  induction rs with
  | nil => rfl
  | cons p rest ih =>
    obtain ⟨i, r⟩ := p
    by_cases h : i = rid
    · simp [respUpdate, respLookup, h]
    · simp [respUpdate, respLookup, h, ih]

/-- An entry whose result arrived earlier (via the failed-write fallback) and
that is about to age out: result set, no waiter, created at time 0. -/
def c8OldEntry : TokenRequest :=
  { state := "old8", response := none, createdAt := 0, result := some sampleToken }

/-- A store at the capacity ceiling holding the result-ready entry "old8"
(age 600001 ms at time 600001, just past the fixed lifetime) and 9999 fresh
entries; handle 7 is the incoming poll's open response. -/
def c8Store : ServerState :=
  { tokenRequests := ("old8", c8OldEntry) :: mkBlock "a" 600001 9999
    numTokenRequests := 10000
    intervalVar := true
    timerActive := true
    responses := [(7, freshResp)] }

/-- The state after the fixed-threshold pass evicts "old8". -/
def c8AfterClear : ServerState :=
  { tokenRequests := mkBlock "a" 600001 9999
    numTokenRequests := 9999
    intervalVar := true
    timerActive := true
    responses := [(7, freshResp)] }

/-- The sweep, spelled out without local bindings: every field of the result
in terms of the two filters. -/
theorem clearOld_closed_form (threshold now : Int) (w : ServerState) :
    clearOldTokenRequests threshold now w =
      if w.numTokenRequests
            - ((w.tokenRequests.filter (isStale threshold now)).length : Int) = 0
          ∧ w.intervalVar = true then
        { w with
            tokenRequests := w.tokenRequests.filter (fun p => ¬ isStale threshold now p),
            numTokenRequests := w.numTokenRequests
              - ((w.tokenRequests.filter (isStale threshold now)).length : Int),
            responses := (w.tokenRequests.filter (isStale threshold now)).foldl
              (fun rs p => write408 p rs) w.responses,
            timerActive := false }
      else
        { w with
            tokenRequests := w.tokenRequests.filter (fun p => ¬ isStale threshold now p),
            numTokenRequests := w.numTokenRequests
              - ((w.tokenRequests.filter (isStale threshold now)).length : Int),
            responses := (w.tokenRequests.filter (isStale threshold now)).foldl
              (fun rs p => write408 p rs) w.responses } :=
  rfl

theorem c8_clear :
    clearOldTokenRequests MAX_REQUEST_LIFETIME 600001 c8Store = c8AfterClear := by
  have hev : c8Store.tokenRequests.filter (isStale MAX_REQUEST_LIFETIME 600001)
      = [("old8", c8OldEntry)] := by
    show (("old8", c8OldEntry) :: mkBlock "a" 600001 9999).filter
        (isStale MAX_REQUEST_LIFETIME 600001) = _
    rw [List.filter_cons, if_pos (by decide :
      isStale MAX_REQUEST_LIFETIME 600001 ("old8", c8OldEntry) = true)]
    rw [List.filter_eq_nil_iff.mpr (fun p hp => by
      simp only [isStale, mem_mkBlock_createdAt "a" 600001 9999 p hp]
      decide)]
  have hk : c8Store.tokenRequests.filter
      (fun p => ¬ isStale MAX_REQUEST_LIFETIME 600001 p) = mkBlock "a" 600001 9999 := by
    show (("old8", c8OldEntry) :: mkBlock "a" 600001 9999).filter _ = _
    rw [List.filter_cons, if_neg (by decide)]
    exact List.filter_eq_self.mpr (fun p hp => by
      simp only [isStale, mem_mkBlock_createdAt "a" 600001 9999 p hp]
      decide)
  rw [clearOld_closed_form, hev, hk]
  rw [if_neg (by decide)]
  rfl

theorem c8_capacityEvict : capacityEvict 600001 c8Store = c8AfterClear := by
  unfold capacityEvict
  rw [if_pos (by decide : c8Store.numTokenRequests ≥ MAX_TOKEN_REQUESTS)]
  simp only [c8_clear]
  rw [if_neg (by decide : ¬ c8AfterClear.numTokenRequests ≥ MAX_TOKEN_REQUESTS)]

theorem c8_keys_ne_old8 : ∀ p ∈ mkBlock "a" 600001 9999, p.1 ≠ "old8" := by
  intro p hp
  obtain ⟨i, hk⟩ := mem_mkBlock_key _ _ _ p hp
  rw [hk]
  exact mkKey_ne "a" "old8" 'a' [] rfl (by decide) i

/-- C8 counterexample: a store at the capacity ceiling holds a result-ready
entry for "old8" that is just past the fixed lifetime.  Registering a new
waiter for "old8" first runs the capacity eviction, which deletes that very
entry; the poll is then registered as a brand-new waiter entry: the stored
result is never delivered (handle 7 stays exactly the fresh response: no
status 200, no body) and the entry's result is gone rather than left in
place. -/
theorem c8_counterexample :
    (objLookup "old8" c8Store.tokenRequests).map TokenRequest.result
      = some (some sampleToken) ∧
    c8Store.numTokenRequests ≥ MAX_TOKEN_REQUESTS ∧
    respLookup 7 (addTokenRequest "old8" (some 7) none 600001 c8Store).responses
      = some freshResp ∧
    (objLookup "old8"
        (addTokenRequest "old8" (some 7) none 600001 c8Store).tokenRequests).map
      TokenRequest.result = some none := by
  refine ⟨rfl, by decide, ?_, ?_⟩
  · unfold addTokenRequest
    rw [startSweep_responses, c8_capacityEvict]
    unfold insertOrDeliver
    simp only [objLookup_eq_none "old8" c8AfterClear.tokenRequests c8_keys_ne_old8]
    rfl
  · unfold addTokenRequest
    rw [startSweep_tokenRequests, c8_capacityEvict]
    unfold insertOrDeliver
    simp only [objLookup_eq_none "old8" c8AfterClear.tokenRequests c8_keys_ne_old8]
    rw [objLookup_objSet_self]
    rfl

/-- C8 (amended): provided the entry for the token survives to the branching
phase — in particular whenever the store is below the capacity ceiling, so
that the capacity-triggered eviction does not run — registering a new waiter
for a token whose entry has its result set delivers exactly the stored
result synchronously: the waiter's response gets status 200 and the
serialization of the stored result appended to its body (and is not ended:
this path calls write, not end), while the map is completely unchanged — the
entry stays in place with its result still set. -/
theorem c8_amended_replay_delivery
    (s : String) (rid : Nat) (now : Int) (w : ServerState)
    (old : TokenRequest) (t : AccessToken) (r : Resp)
    (hcap : w.numTokenRequests < MAX_TOKEN_REQUESTS)
    (hold : objLookup s w.tokenRequests = some old)
    (hres : old.result = some t)
    (hr : respLookup rid w.responses = some r) :
    (addTokenRequest s (some rid) none now w).tokenRequests = w.tokenRequests ∧
    objLookup s (addTokenRequest s (some rid) none now w).tokenRequests = some old ∧
    respLookup rid (addTokenRequest s (some rid) none now w).responses =
      some { r with status := some 200, body := r.body ++ jsonStringify t } := by
  unfold addTokenRequest
  rw [capacityEvict_of_lt now w hcap]
  refine ⟨?_, ?_, ?_⟩
  · rw [startSweep_tokenRequests]
    unfold insertOrDeliver
    simp only [hold, hres]
  · rw [startSweep_tokenRequests]
    unfold insertOrDeliver
    simp only [hold, hres]
  · rw [startSweep_responses]
    unfold insertOrDeliver
    simp only [hold, hres]
    show respLookup rid (writeStoredResult rid t w.responses) = _
    unfold writeStoredResult
    rw [respLookup_respUpdate_self, hr]
    rfl

/-- A one-entry store holding a result-ready entry for "s8", below the
capacity ceiling, with a fresh open response handle 3. -/
def c8SmallStore : ServerState :=
  { tokenRequests :=
      [("s8", { state := "s8", response := none, createdAt := 0, result := some sampleToken })]
    numTokenRequests := 1
    intervalVar := true
    timerActive := true
    responses := [(3, freshResp)] }

/-- The result-ready entry of the one-entry store. -/
def c8SmallEntry : TokenRequest :=
  { state := "s8", response := none, createdAt := 0, result := some sampleToken }

/-- The expected state of handle 3 after the replay delivery: status 200 and
the serialized stored token appended, response not ended. -/
def c8DeliveredResp : Resp :=
  { freshResp with
      status := some 200
      body := freshResp.body ++ jsonStringify sampleToken }

/-- C8 amended, witness: a concrete replay delivery on the one-entry store. -/
theorem c8_amended_witness :
    (addTokenRequest "s8" (some 3) none 9 c8SmallStore).tokenRequests
      = c8SmallStore.tokenRequests ∧
    objLookup "s8" (addTokenRequest "s8" (some 3) none 9 c8SmallStore).tokenRequests
      = some c8SmallEntry ∧
    respLookup 3 (addTokenRequest "s8" (some 3) none 9 c8SmallStore).responses
      = some c8DeliveredResp :=
  c8_amended_replay_delivery "s8" 3 9 c8SmallStore c8SmallEntry
    sampleToken freshResp (by decide) rfl rfl rfl
